import Mathlib

/-!
Verification development for the `cspheader` Go library.

The library assembles Content-Security-Policy header values from a
declarative per-directive configuration.  The embedding below translates
the option value types and the `Parse`/`Load` pipeline into pure Lean
functions.  Go's `text/template` rendering with the five built-in default
template texts is embedded as five pure string-building functions whose
clauses mirror the template actions one-to-one (the library only ever
renders through a compiled template; with the default texts the rendering
can never fail, so the rendering functions are total).  Go maps are
embedded as association lists with the fixed key sets the code uses;
Go's nondeterministic map-iteration order is fixed to the source-literal
order, and every theorem about the flattened output is stated in an
order-insensitive way (membership / lookup), never about fragment order.
-/

namespace Cspheader

/-- `CSPSourceOptions` represent CSP source values (option value types file). -/
structure CSPSourceOptions where
  Allow : Bool := false
  AllowSelf : Bool := false
  Values : List String := []
  UnsafeEval : Bool := false
  WasmUnsafeEval : Bool := false
  UnsafeHashes : Bool := false
  UnsafeInline : Bool := false
  NonceBase64Value : String := ""
  HashAlgorithmBase64Value : String := ""
  StrictDynamic : Bool := false
  ReportSample : Bool := false
deriving Repr, DecidableEq

/-- `UnquotedOption` is an unquoted singular value. -/
structure UnquotedOption where
  Value : String := ""
deriving Repr, DecidableEq

/-- `UnquotedOptions` is for one or more unquoted values. -/
structure UnquotedOptions where
  Values : List String := []
deriving Repr, DecidableEq

/-- `SandboxOptions`: the 13 sandbox flags, in source order. -/
structure SandboxOptions where
  AllowDownloads : Bool := false
  AllowForms : Bool := false
  AllowModals : Bool := false
  AllowOrientationLock : Bool := false
  AllowPointerLock : Bool := false
  AllowPopups : Bool := false
  AllowPopupsToEscapeSandbox : Bool := false
  AllowPresentation : Bool := false
  AllowSameOrigin : Bool := false
  AllowScripts : Bool := false
  AllowTopNavigation : Bool := false
  AllowTopNavigationByUserActivation : Bool := false
  AllowTopNavigationToCustomProtocols : Bool := false
deriving Repr, DecidableEq

/-- `FrameAncestorOptions` is for one or more unquoted values. -/
structure FrameAncestorOptions where
  Allow : Bool := false
  AllowSelf : Bool := false
  HostSources : List String := []
  SchemeSources : List String := []
deriving Repr, DecidableEq

/-! The five default template texts, verbatim from the Go constants
(braces written with `\x7b` / `\x7d` escapes). -/

/-- `TemplateTextSourceOption` is the default parsing of CSP source options. -/
def TemplateTextSourceOption : String :=
  "\x7b\x7b if not .Allow \x7d\x7d'none'\x7b\x7b else \x7d\x7d" ++
  "\x7b\x7b if .AllowSelf \x7d\x7d'self'\x7b\x7b end \x7d\x7d" ++
  "\x7b\x7b range $v := .Values \x7d\x7d \x7b\x7b$v\x7d\x7d\x7b\x7b end \x7d\x7d" ++
  "\x7b\x7b if .UnsafeEval \x7d\x7d 'unsafe-eval'\x7b\x7b end \x7d\x7d" ++
  "\x7b\x7b if .WasmUnsafeEval \x7d\x7d 'wasm-unsafe-eval'\x7b\x7b end \x7d\x7d" ++
  "\x7b\x7b if .UnsafeHashes \x7d\x7d 'unsafe-hashes'\x7b\x7b end \x7d\x7d" ++
  "\x7b\x7b if .UnsafeInline \x7d\x7d 'unsafe-inline'\x7b\x7b end \x7d\x7d" ++
  "\x7b\x7b if gt (len .NonceBase64Value) 0 \x7d\x7d\x7b\x7b .NonceBase64Value\x7d\x7d\x7b\x7b end \x7d\x7d" ++
  "\x7b\x7b if gt (len .HashAlgorithmBase64Value) 0 \x7d\x7d\x7b\x7b .HashAlgorithmBase64Value\x7d\x7d\x7b\x7b end \x7d\x7d" ++
  "\x7b\x7b if .StrictDynamic \x7d\x7d 'strict-dynamic'\x7b\x7b end \x7d\x7d" ++
  "\x7b\x7b if .ReportSample \x7d\x7d 'report-sample'\x7b\x7b end \x7d\x7d" ++
  "\x7b\x7b end \x7d\x7d"

/-- `TemplateTextSandbox` is the default parsing of Sandbox options. -/
def TemplateTextSandbox : String :=
  "\x7b\x7b if .AllowDownloads \x7d\x7dallow-downloads\x7b\x7b end \x7d\x7d" ++
  "\x7b\x7b if .AllowForms \x7d\x7d allow-forms\x7b\x7b end \x7d\x7d" ++
  "\x7b\x7b if .AllowModals \x7d\x7d allow-modals\x7b\x7b end \x7d\x7d" ++
  "\x7b\x7b if .AllowOrientationLock \x7d\x7d allow-orientation-lock\x7b\x7b end \x7d\x7d" ++
  "\x7b\x7b if .AllowPointerLock \x7d\x7d allow-pointer-lock\x7b\x7b end \x7d\x7d" ++
  "\x7b\x7b if .AllowPopups \x7d\x7d allow-popups\x7b\x7b end \x7d\x7d" ++
  "\x7b\x7b if .AllowPopupsToEscapeSandbox \x7d\x7d allow-popups-to-escape-sandbox\x7b\x7b end \x7d\x7d" ++
  "\x7b\x7b if .AllowPresentation \x7d\x7d allow-presentation\x7b\x7b end \x7d\x7d" ++
  "\x7b\x7b if .AllowSameOrigin \x7d\x7d allow-same-origin\x7b\x7b end \x7d\x7d" ++
  "\x7b\x7b if .AllowScripts \x7d\x7d allow-scripts\x7b\x7b end \x7d\x7d" ++
  "\x7b\x7b if .AllowTopNavigation \x7d\x7d allow-top-navigation\x7b\x7b end \x7d\x7d" ++
  "\x7b\x7b if .AllowTopNavigationByUserActivation \x7d\x7d allow-top-navigation-by-user-activation\x7b\x7b end \x7d\x7d" ++
  "\x7b\x7b if .AllowTopNavigationToCustomProtocols \x7d\x7d allow-top-navigation-to-custom-protocols\x7b\x7b end \x7d\x7d"

/-- `TemplateTextFrameAncestorOptions`, verbatim from the Go constant. -/
def TemplateTextFrameAncestorOptions : String :=
  "\x7b\x7b if not .Allow \x7d\x7d'none'\x7b\x7b else \x7d\x7d" ++
  "\x7b\x7b if .AllowSelf \x7d\x7d'self'\x7b\x7b end \x7d\x7d" ++
  "\x7b\x7b range $v := .HostSources \x7d\x7d \x7b\x7b$v\x7d\x7d\x7b\x7b end \x7d\x7d" ++
  "\x7b\x7b range $v := .SchemeSources \x7d\x7d \x7b\x7b$v\x7d\x7d\x7b\x7b end \x7d\x7d" ++
  "\x7b\x7b end \x7d\x7d"

/-- `TemplateTextUnquotedOptions`, verbatim from the Go constant. -/
def TemplateTextUnquotedOptions : String :=
  "\x7b\x7b range $v := .Values \x7d\x7d\x7b\x7b$v\x7d\x7d \x7b\x7b end \x7d\x7d"

/-- `TemplateTextUnquotedOption`, verbatim from the Go constant. -/
def TemplateTextUnquotedOption : String := "\x7b\x7b .Value \x7d\x7d"

/-- Embedding of `Policy.Load`'s default-template fallback (one `if` per
template kind): a caller-supplied text is used when its length is nonzero,
otherwise the built-in default text for that kind is used. -/
def resolveTemplateText (supplied dflt : String) : String :=
  if supplied.length = 0 then dflt else supplied

/-! Rendering under the default templates.  Each function is the
denotation of executing the corresponding default template text on an
option value: one clause per template action, literal text (including
every space) carried over verbatim. -/

/-- `CSPSourceOptions.Parse` with the default `TemplateTextSourceOption`. -/
def renderSourceOption (cso : CSPSourceOptions) : String :=
  if !cso.Allow then "'none'"
  else
    (if cso.AllowSelf then "'self'" else "") ++
    String.join (cso.Values.map (fun v => " " ++ v)) ++
    (if cso.UnsafeEval then " 'unsafe-eval'" else "") ++
    (if cso.WasmUnsafeEval then " 'wasm-unsafe-eval'" else "") ++
    (if cso.UnsafeHashes then " 'unsafe-hashes'" else "") ++
    (if cso.UnsafeInline then " 'unsafe-inline'" else "") ++
    (if 0 < cso.NonceBase64Value.length then cso.NonceBase64Value else "") ++
    (if 0 < cso.HashAlgorithmBase64Value.length then cso.HashAlgorithmBase64Value else "") ++
    (if cso.StrictDynamic then " 'strict-dynamic'" else "") ++
    (if cso.ReportSample then " 'report-sample'" else "")

/-- `SandboxOptions.Parse` with the default `TemplateTextSandbox`. -/
def renderSandbox (so : SandboxOptions) : String :=
  (if so.AllowDownloads then "allow-downloads" else "") ++
  (if so.AllowForms then " allow-forms" else "") ++
  (if so.AllowModals then " allow-modals" else "") ++
  (if so.AllowOrientationLock then " allow-orientation-lock" else "") ++
  (if so.AllowPointerLock then " allow-pointer-lock" else "") ++
  (if so.AllowPopups then " allow-popups" else "") ++
  (if so.AllowPopupsToEscapeSandbox then " allow-popups-to-escape-sandbox" else "") ++
  (if so.AllowPresentation then " allow-presentation" else "") ++
  (if so.AllowSameOrigin then " allow-same-origin" else "") ++
  (if so.AllowScripts then " allow-scripts" else "") ++
  (if so.AllowTopNavigation then " allow-top-navigation" else "") ++
  (if so.AllowTopNavigationByUserActivation then " allow-top-navigation-by-user-activation" else "") ++
  (if so.AllowTopNavigationToCustomProtocols then " allow-top-navigation-to-custom-protocols" else "")

/-- `FrameAncestorOptions.Parse` with the default
`TemplateTextFrameAncestorOptions`. -/
def renderFrameAncestorOptions (fao : FrameAncestorOptions) : String :=
  if !fao.Allow then "'none'"
  else
    (if fao.AllowSelf then "'self'" else "") ++
    String.join (fao.HostSources.map (fun v => " " ++ v)) ++
    String.join (fao.SchemeSources.map (fun v => " " ++ v))

/-- `UnquotedOptions.Parse` with the default `TemplateTextUnquotedOptions`
(note: each value is followed by a trailing space, per the template). -/
def renderUnquotedOptions (uvs : UnquotedOptions) : String :=
  String.join (uvs.Values.map (fun v => v ++ " "))

/-- `UnquotedOption.Parse` with the default `TemplateTextUnquotedOption`. -/
def renderUnquotedOption (uv : UnquotedOption) : String := uv.Value

/-! Embedding of Go's `strings.Contains` on char lists.  For valid UTF-8
inputs, byte-level substring containment coincides with character-level
containment (UTF-8 is self-synchronizing), so this is faithful. -/

/-- `leadsWith needle hay`: `needle` occurs at the start of `hay`. -/
def leadsWith : List Char → List Char → Bool
  | [], _ => true
  | _ :: _, [] => false
  | a :: as, b :: bs => a == b && leadsWith as bs

/-- `occursIn needle hay`: `needle` occurs contiguously somewhere in `hay`. -/
def occursIn (needle : List Char) : List Char → Bool
  | [] => needle.isEmpty
  | c :: rest => leadsWith needle (c :: rest) || occursIn needle rest

/-- Go's `strings.Contains(s, substr)`. -/
def stringsContains (s substr : String) : Bool :=
  occursIn substr.data s.data

/-! The `Policy` aggregate and the `Load` pipeline (`csp.go`).  The
embedding fixes the five template texts to the built-in defaults — the
branch `Load` takes when the caller leaves the template-text fields empty;
the fallback itself is embedded separately as `resolveTemplateText`.
With the default templates, template compilation and rendering never
fail, so the only error paths left in `Load` are the report-to checks. -/

/-- The `CSP` sub-struct of `Policy`: one option value per directive. -/
structure CSPConfig where
  DefaultSrc : CSPSourceOptions := {}
  ChildSrc : CSPSourceOptions := {}
  ConnectSrc : CSPSourceOptions := {}
  FontSrc : CSPSourceOptions := {}
  FrameSrc : CSPSourceOptions := {}
  ImgSrc : CSPSourceOptions := {}
  ManifestSrc : CSPSourceOptions := {}
  MediaSrc : CSPSourceOptions := {}
  ObjectSrc : CSPSourceOptions := {}
  PrefetchSrc : CSPSourceOptions := {}
  ScriptSrc : CSPSourceOptions := {}
  ScriptSrcElem : CSPSourceOptions := {}
  ScriptSrcAttr : CSPSourceOptions := {}
  StyleSrc : CSPSourceOptions := {}
  StyleSrcElem : CSPSourceOptions := {}
  StyleSrcAttr : CSPSourceOptions := {}
  WorkerSrc : CSPSourceOptions := {}
  BaseURI : CSPSourceOptions := {}
  Sandbox : SandboxOptions := {}
  FormAction : CSPSourceOptions := {}
  FrameAncestors : FrameAncestorOptions := {}
  ReportURI : UnquotedOptions := {}
  ReportTo : UnquotedOption := {}
  UpgradeInsecureRequests : Bool := false
deriving Repr, DecidableEq

/-- `Policy`: the CSP configuration plus the literal `Report-To` header
payload (`pol.ReportTo.ReportTo` in the source). -/
structure Policy where
  CSP : CSPConfig := {}
  ReportToPayload : String := ""
deriving Repr, DecidableEq

/-- The `sourceOptFetchDirectives` map literal of `Load`, in source order
(association list; `default-src` is handled explicitly outside it). -/
def sourceOptFetchDirectives (c : CSPConfig) : List (String × CSPSourceOptions) :=
  [("child-src", c.ChildSrc),
   ("connect-src", c.ConnectSrc),
   ("font-src", c.FontSrc),
   ("frame-src", c.FrameSrc),
   ("img-src", c.ImgSrc),
   ("manifest-src", c.ManifestSrc),
   ("media-src", c.MediaSrc),
   ("object-src", c.ObjectSrc),
   ("prefetch-src", c.PrefetchSrc),
   ("script-src", c.ScriptSrc),
   ("script-src-elem", c.ScriptSrcElem),
   ("script-src-attr", c.ScriptSrcAttr),
   ("style-src", c.StyleSrc),
   ("style-src-elem", c.StyleSrcElem),
   ("style-src-attr", c.StyleSrcAttr),
   ("worker-src", c.WorkerSrc)]

/-- The `sourceOptNonFetchDirectives` map literal of `Load`. -/
def sourceOptNonFetchDirectives (c : CSPConfig) : List (String × CSPSourceOptions) :=
  [("base-uri", c.BaseURI),
   ("form-action", c.FormAction)]

/-- The dynamic-classification test of `Load`:
`len(v.NonceBase64Value) > 0 || len(v.HashAlgorithmBase64Value) > 0`. -/
def isDynamic (v : CSPSourceOptions) : Bool :=
  0 < v.NonceBase64Value.length || 0 < v.HashAlgorithmBase64Value.length

/-- Result of a successful `Load`: the two internal directive maps
(`cspStaticDirectives`, `cspDynamicDirectives`), the non-empty flattened
fragments, and the returned header map, all as association lists. -/
structure LoadResult where
  staticDirectives : List (String × String)
  dynamicDirectives : List (String × String)
  fragments : List String
  headers : List (String × String)
deriving Repr, DecidableEq

/-! The directive-processing and flattening part of `Load` (everything
after the report-to validation), with the default templates, split into
named pieces for the proofs.  The fetch loop skips a directive whose
rendered text equals the rendered `default-src` text (`continue`), then
routes it to the dynamic map when `isDynamic`, else to the static map;
the filters below express the same routing.  Flattening walks the static
map and then the dynamic map, skipping empty values, and joins
`"<name> <text>;"` fragments with a single space. -/

/-- The rendered `default-src` text (`pol.cspStaticDirectives["default-src"]`). -/
def defaultTextOf (pol : Policy) : String :=
  renderSourceOption pol.CSP.DefaultSrc

/-- Fetch-loop entries routed to the static map: not redundant with
`default-src` and not dynamic. -/
def fetchStaticOf (pol : Policy) : List (String × String) :=
  ((sourceOptFetchDirectives pol.CSP).filter (fun kv =>
    renderSourceOption kv.2 != defaultTextOf pol && !isDynamic kv.2)).map
    (fun kv => (kv.1, renderSourceOption kv.2))

/-- Fetch-loop entries routed to the dynamic map: not redundant with
`default-src` and dynamic. -/
def fetchDynamicOf (pol : Policy) : List (String × String) :=
  ((sourceOptFetchDirectives pol.CSP).filter (fun kv =>
    renderSourceOption kv.2 != defaultTextOf pol && isDynamic kv.2)).map
    (fun kv => (kv.1, renderSourceOption kv.2))

/-- Non-fetch-loop entries routed to the static map (no redundancy
filtering here). -/
def nonFetchStaticOf (pol : Policy) : List (String × String) :=
  ((sourceOptNonFetchDirectives pol.CSP).filter (fun kv => !isDynamic kv.2)).map
    (fun kv => (kv.1, renderSourceOption kv.2))

/-- Non-fetch-loop entries routed to the dynamic map. -/
def nonFetchDynamicOf (pol : Policy) : List (String × String) :=
  ((sourceOptNonFetchDirectives pol.CSP).filter (fun kv => isDynamic kv.2)).map
    (fun kv => (kv.1, renderSourceOption kv.2))

/-- `pol.cspStaticDirectives` after all assignments: `default-src`
(stored unconditionally first), the static fetch and non-fetch entries,
then sandbox, frame-ancestors, report-uri, report-to and
upgrade-insecure-requests (the last is the literal token when the flag is
set, else empty). -/
def staticDirectivesOf (pol : Policy) : List (String × String) :=
  ("default-src", defaultTextOf pol) ::
  (fetchStaticOf pol ++ nonFetchStaticOf pol ++
   [("sandbox", renderSandbox pol.CSP.Sandbox),
    ("frame-ancestors", renderFrameAncestorOptions pol.CSP.FrameAncestors),
    ("report-uri", renderUnquotedOptions pol.CSP.ReportURI),
    ("report-to", renderUnquotedOption pol.CSP.ReportTo),
    ("upgrade-insecure-requests",
      if pol.CSP.UpgradeInsecureRequests then "upgrade-insecure-requests"
      else "")])

/-- `pol.cspDynamicDirectives` after both loops. -/
def dynamicDirectivesOf (pol : Policy) : List (String × String) :=
  fetchDynamicOf pol ++ nonFetchDynamicOf pol

/-- The `activeCSPs` flattening: every directive entry with a non-empty
value, static map first then dynamic map. -/
def activeEntriesOf (pol : Policy) : List (String × String) :=
  (staticDirectivesOf pol ++ dynamicDirectivesOf pol).filter
    (fun kv => kv.2 != "")

def assemble (pol : Policy) : LoadResult :=
  let fragments := (activeEntriesOf pol).map (fun kv => kv.1 ++ " " ++ kv.2 ++ ";")
  { staticDirectives := staticDirectivesOf pol,
    dynamicDirectives := dynamicDirectivesOf pol,
    fragments := fragments,
    headers :=
      ("Content-Security-Policy", String.intercalate " " fragments) ::
      (if pol.ReportToPayload != "" then [("Report-To", pol.ReportToPayload)]
       else []) }

/-- `Policy.Load` with the default templates: the compound report-to
pre-flight check (`len(pol.CSP.ReportTo.Value) != 0` guards both
sub-checks), then directive assembly. -/
def Policy.Load (pol : Policy) : Except String LoadResult :=
  if pol.CSP.ReportTo.Value.length ≠ 0 then
    if pol.ReportToPayload.length = 0 then
      .error "report-to is required if Content-Security-Policy: report-to <value> is set"
    else if !stringsContains pol.ReportToPayload pol.CSP.ReportTo.Value then
      .error "report-to target not found"
    else .ok (assemble pol)
  else .ok (assemble pol)

/-- The entries of a `LoadResult` that survive the emptiness check of the
flattening loops (the fragments are exactly their images). -/
def emittedOf (r : LoadResult) : List (String × String) :=
  (r.staticDirectives ++ r.dynamicDirectives).filter (fun kv => kv.2 != "")

/-- Association-list lookup modelling Go's map indexing on the (unique-key)
directive maps. -/
def alookup (k : String) : List (String × String) → Option String
  | [] => none
  | (k2, v) :: rest => if k2 = k then some v else alookup k rest

/-- The fixed key set of the fetch-directive map, in source order. -/
def fetchNames : List String :=
  ["child-src", "connect-src", "font-src", "frame-src", "img-src",
   "manifest-src", "media-src", "object-src", "prefetch-src",
   "script-src", "script-src-elem", "script-src-attr",
   "style-src", "style-src-elem", "style-src-attr", "worker-src"]

/-- The fixed key set of the non-fetch source-option map. -/
def nonFetchNames : List String := ["base-uri", "form-action"]

/-- The keys `Load` assigns unconditionally after the two loops. -/
def tailNames : List String :=
  ["sandbox", "frame-ancestors", "report-uri", "report-to",
   "upgrade-insecure-requests"]

/-- The `Content-Security-Policy` value of a returned header map. -/
def cspValueOf (r : LoadResult) : String :=
  (alookup "Content-Security-Policy" r.headers).getD ""

/-- Whether a string contains two adjacent spaces. -/
def hasDoubleSpace (s : String) : Bool := occursIn "  ".data s.data

/-- Whether a string ends with a space character. -/
def trailingSpace (s : String) : Bool := s.data.getLast? == some ' '

/-! Concrete policies and option values used by the witnesses and
counterexamples below. -/

/-- The zero-valued policy (every field its Go zero value). -/
def egZero : Policy := {}

/-- `script-src` configured identically to `default-src`, both rendering
to the empty string (`Allow=true`, everything else zero). -/
def egC2 : Policy :=
  { CSP := { DefaultSrc := { Allow := true }, ScriptSrc := { Allow := true } } }

/-- `report-to` group name set but no payload. -/
def egC3Missing : Policy := { CSP := { ReportTo := { Value := "default" } } }

/-- `report-to` group name set, payload that does not mention it. -/
def egC3Mismatch : Policy :=
  { CSP := { ReportTo := { Value := "default" } },
    ReportToPayload := "group other" }

/-- `report-to` group name set, payload containing it. -/
def egC3Good : Policy :=
  { CSP := { ReportTo := { Value := "default" } },
    ReportToPayload := "group default endpoints" }

/-- A nonce-carrying `script-src` that renders identically to the default
(`Allow=false` short-circuits rendering to `'none'`). -/
def egC4 : Policy :=
  { CSP := { ScriptSrc := { NonceBase64Value := "'nonce-abc'" } } }

/-- A nonce-carrying `script-src` that does not match `default-src`. -/
def egC4w : Policy :=
  { CSP := { ScriptSrc := { Allow := true, NonceBase64Value := "'nonce-abc'" } } }

/-- `default-src` rendering to the empty string. -/
def egC5 : Policy := { CSP := { DefaultSrc := { Allow := true } } }

/-- Sandbox options with only `AllowForms` and `AllowScripts` set. -/
def egSandboxFormsScripts : SandboxOptions :=
  { AllowForms := true, AllowScripts := true }

/-- A source option carrying `'self'` and a nonce token. -/
def egC7src : CSPSourceOptions :=
  { Allow := true, AllowSelf := true, NonceBase64Value := "'nonce-abc'" }

/-- A one-element `report-uri` value list. -/
def egC7uris : UnquotedOptions := { Values := ["https://example.com/r"] }

/-- A flags-only source option (no values, no nonce/hash). -/
def egC7flags : CSPSourceOptions :=
  { Allow := true, AllowSelf := true, UnsafeInline := true }

/-- A policy with a `Report-To` payload but no `report-to` group name. -/
def egC8 : Policy := { ReportToPayload := "endpoints descriptor" }

lemma keys_fetch (c : CSPConfig) :
    (sourceOptFetchDirectives c).map Prod.fst = fetchNames := rfl

lemma keys_nonFetch (c : CSPConfig) :
    (sourceOptNonFetchDirectives c).map Prod.fst = nonFetchNames := rfl

lemma alookup_cons (k k2 v : String) (l : List (String × String)) :
    alookup k ((k2, v) :: l) = if k2 = k then some v else alookup k l := rfl

lemma alookup_append_of_none (k : String) {l₁ : List (String × String)}
    (l₂ : List (String × String)) (h : alookup k l₁ = none) :
    alookup k (l₁ ++ l₂) = alookup k l₂ := by
  induction l₁ with
  | nil => rfl
  | cons hd tl ih =>
    obtain ⟨k2, v⟩ := hd
    by_cases hk : k2 = k
    · rw [alookup_cons, if_pos hk] at h; exact absurd h (by simp)
    · rw [alookup_cons, if_neg hk] at h
      rw [List.cons_append, alookup_cons, if_neg hk]
      exact ih h

lemma alookup_append_of_some (k v : String) {l₁ : List (String × String)}
    (l₂ : List (String × String)) (h : alookup k l₁ = some v) :
    alookup k (l₁ ++ l₂) = some v := by
  induction l₁ with
  | nil => simp [alookup] at h
  | cons hd tl ih =>
    obtain ⟨k2, w⟩ := hd
    by_cases hk : k2 = k
    · rw [alookup_cons, if_pos hk] at h
      rw [List.cons_append, alookup_cons, if_pos hk]
      exact h
    · rw [alookup_cons, if_neg hk] at h
      rw [List.cons_append, alookup_cons, if_neg hk]
      exact ih h

lemma alookup_eq_none_of_not_mem (k : String) (l : List (String × String))
    (h : k ∉ l.map Prod.fst) : alookup k l = none := by
  induction l with
  | nil => rfl
  | cons hd tl ih =>
    obtain ⟨k2, v⟩ := hd
    simp only [List.map_cons, List.mem_cons] at h
    push_neg at h
    rw [alookup, if_neg (fun hk => h.1 hk.symm)]
    exact ih h.2

lemma mem_of_alookup_eq_some (k v : String) (l : List (String × String))
    (h : alookup k l = some v) : (k, v) ∈ l := by
  induction l with
  | nil => simp [alookup] at h
  | cons hd tl ih =>
    obtain ⟨k2, w⟩ := hd
    by_cases hk : k2 = k
    · rw [alookup, if_pos hk] at h
      subst hk
      simp_all
    · rw [alookup, if_neg hk] at h
      exact List.mem_cons_of_mem _ (ih h)

lemma alookup_filter_eq_none (k : String) (q : String × String → Bool)
    (l : List (String × String)) (h : alookup k l = none) :
    alookup k (l.filter q) = none := by
  induction l with
  | nil => rfl
  | cons hd tl ih =>
    obtain ⟨k2, v⟩ := hd
    by_cases hk : k2 = k
    · rw [alookup, if_pos hk] at h; exact absurd h (by simp)
    · rw [alookup, if_neg hk] at h
      by_cases hq : q (k2, v)
      · rw [List.filter_cons_of_pos hq, alookup, if_neg hk]
        exact ih h
      · rw [List.filter_cons_of_neg hq]
        exact ih h

/-- Lookup in a rendered, filtered directive list over keys not present in
the underlying option list. -/
lemma alookup_render_filter_of_not_mem (k : String)
    (P : String × CSPSourceOptions → Bool)
    (l : List (String × CSPSourceOptions)) (h : k ∉ l.map Prod.fst) :
    alookup k ((l.filter P).map
      (fun kv => (kv.1, renderSourceOption kv.2))) = none := by
  induction l with
  | nil => rfl
  | cons hd tl ih =>
    obtain ⟨k2, v⟩ := hd
    simp only [List.map_cons, List.mem_cons] at h
    push_neg at h
    by_cases hP : P (k2, v)
    · rw [List.filter_cons_of_pos hP, List.map_cons, alookup,
        if_neg (fun hk => h.1 hk.symm)]
      exact ih h.2
    · rw [List.filter_cons_of_neg hP]
      exact ih h.2

/-- Lookup in a rendered, filtered directive list at a key of the
underlying (unique-key) option list: the entry is present exactly when
the filter keeps it. -/
lemma alookup_render_filter (k : String) (v : CSPSourceOptions)
    (P : String × CSPSourceOptions → Bool)
    (l : List (String × CSPSourceOptions))
    (hnd : (l.map Prod.fst).Nodup) (hm : (k, v) ∈ l) :
    alookup k ((l.filter P).map
      (fun kv => (kv.1, renderSourceOption kv.2))) =
      if P (k, v) then some (renderSourceOption v) else none := by
  induction l with
  | nil => simp at hm
  | cons hd tl ih =>
    obtain ⟨k2, v2⟩ := hd
    simp only [List.map_cons, List.nodup_cons] at hnd
    rcases List.mem_cons.mp hm with heq | htl
    · obtain ⟨rfl, rfl⟩ := Prod.mk.injEq .. ▸ And.intro
        (congrArg Prod.fst heq) (congrArg Prod.snd heq)
      by_cases hP : P (k, v)
      · rw [List.filter_cons_of_pos hP, List.map_cons, alookup, if_pos rfl,
          if_pos hP]
      · rw [List.filter_cons_of_neg hP, if_neg hP]
        exact alookup_render_filter_of_not_mem k P tl hnd.1
    · have hk : k2 ≠ k := by
        intro hk; subst hk
        exact hnd.1 (List.mem_map.mpr ⟨(k2, v), htl, rfl⟩)
      by_cases hP : P (k2, v2)
      · rw [List.filter_cons_of_pos hP, List.map_cons, alookup, if_neg hk]
        exact ih hnd.2 htl
      · rw [List.filter_cons_of_neg hP]
        exact ih hnd.2 htl

lemma load_ok {p : Policy} {r : LoadResult} (h : p.Load = .ok r) :
    r = assemble p := by
  unfold Policy.Load at h
  split at h
  · split at h
    · exact absurd h (by simp)
    · split at h
      · exact absurd h (by simp)
      · exact (Except.ok.injEq .. ▸ h).symm
  · exact (Except.ok.injEq .. ▸ h).symm

lemma fetchNames_disjoint :
    ∀ x ∈ fetchNames,
      x ≠ "default-src" ∧ x ∉ nonFetchNames ∧ x ∉ tailNames := by decide

lemma nonFetchNames_disjoint :
    ∀ x ∈ nonFetchNames,
      x ≠ "default-src" ∧ x ∉ fetchNames ∧ x ∉ tailNames := by decide

lemma fetchNames_nodup : fetchNames.Nodup := by decide

lemma nonFetchNames_nodup : nonFetchNames.Nodup := by decide

/-- The key of a fetch entry, as an element of `fetchNames`. -/
lemma mem_fetchNames_of_mem {p : Policy} {k : String} {v : CSPSourceOptions}
    (hm : (k, v) ∈ sourceOptFetchDirectives p.CSP) : k ∈ fetchNames := by
  have := List.mem_map_of_mem Prod.fst hm
  rwa [keys_fetch] at this

lemma mem_nonFetchNames_of_mem {p : Policy} {k : String} {v : CSPSourceOptions}
    (hm : (k, v) ∈ sourceOptNonFetchDirectives p.CSP) : k ∈ nonFetchNames := by
  have := List.mem_map_of_mem Prod.fst hm
  rwa [keys_nonFetch] at this

/-- The trailing static assignments have the keys `tailNames`. -/
lemma alookup_tail_eq_none (p : Policy) (k : String) (hk : k ∉ tailNames) :
    alookup k
      [("sandbox", renderSandbox p.CSP.Sandbox),
       ("frame-ancestors", renderFrameAncestorOptions p.CSP.FrameAncestors),
       ("report-uri", renderUnquotedOptions p.CSP.ReportURI),
       ("report-to", renderUnquotedOption p.CSP.ReportTo),
       ("upgrade-insecure-requests",
         if p.CSP.UpgradeInsecureRequests then "upgrade-insecure-requests"
         else "")] = none := by
  apply alookup_eq_none_of_not_mem
  simpa [tailNames] using hk

/-- `default-src` is always present in the static map, with its rendered
text, regardless of the rest of the policy. -/
lemma alookup_static_default (p : Policy) :
    alookup "default-src" (staticDirectivesOf p) = some (defaultTextOf p) := by
  rw [staticDirectivesOf, alookup_cons, if_pos rfl]

/-- Static-map lookup at a fetch-directive key: present iff the directive
is neither redundant with `default-src` nor dynamic. -/
lemma alookup_static_fetch (p : Policy) (k : String) (v : CSPSourceOptions)
    (hm : (k, v) ∈ sourceOptFetchDirectives p.CSP) :
    alookup k (staticDirectivesOf p) =
      if renderSourceOption v != defaultTextOf p && !isDynamic v then
        some (renderSourceOption v)
      else none := by
  have hk := mem_fetchNames_of_mem hm
  obtain ⟨hk1, hk2, hk3⟩ := fetchNames_disjoint k hk
  rw [staticDirectivesOf, alookup_cons, if_neg (fun h => hk1 h.symm)]
  unfold fetchStaticOf nonFetchStaticOf
  have hfetch := alookup_render_filter k v
    (fun kv => renderSourceOption kv.2 != defaultTextOf p && !isDynamic kv.2)
    (sourceOptFetchDirectives p.CSP)
    (by rw [keys_fetch]; exact fetchNames_nodup) hm
  by_cases hcond : renderSourceOption v != defaultTextOf p && !isDynamic v
  · rw [if_pos hcond] at hfetch
    rw [if_pos hcond, List.append_assoc]
    exact alookup_append_of_some k _ _ hfetch
  · rw [if_neg hcond] at hfetch
    rw [if_neg hcond, List.append_assoc,
      alookup_append_of_none k _ hfetch,
      alookup_append_of_none k _
        (alookup_render_filter_of_not_mem k _ _
          (by rw [keys_nonFetch]; exact hk2))]
    exact alookup_tail_eq_none p k hk3

/-- Dynamic-map lookup at a fetch-directive key: present iff the directive
is not redundant with `default-src` and is dynamic. -/
lemma alookup_dynamic_fetch (p : Policy) (k : String) (v : CSPSourceOptions)
    (hm : (k, v) ∈ sourceOptFetchDirectives p.CSP) :
    alookup k (dynamicDirectivesOf p) =
      if renderSourceOption v != defaultTextOf p && isDynamic v then
        some (renderSourceOption v)
      else none := by
  have hk := mem_fetchNames_of_mem hm
  obtain ⟨_, hk2, _⟩ := fetchNames_disjoint k hk
  unfold dynamicDirectivesOf fetchDynamicOf nonFetchDynamicOf
  have hfetch := alookup_render_filter k v
    (fun kv => renderSourceOption kv.2 != defaultTextOf p && isDynamic kv.2)
    (sourceOptFetchDirectives p.CSP)
    (by rw [keys_fetch]; exact fetchNames_nodup) hm
  by_cases hcond : renderSourceOption v != defaultTextOf p && isDynamic v
  · rw [if_pos hcond] at hfetch
    rw [if_pos hcond]
    exact alookup_append_of_some k _ _ hfetch
  · rw [if_neg hcond] at hfetch
    rw [if_neg hcond, alookup_append_of_none k _ hfetch]
    exact alookup_render_filter_of_not_mem k _ _
      (by rw [keys_nonFetch]; exact hk2)

/-- Static-map lookup at a non-fetch source-option key (`base-uri`,
`form-action`): present iff the directive is not dynamic (no redundancy
filtering on this loop). -/
lemma alookup_static_nonFetch (p : Policy) (k : String) (v : CSPSourceOptions)
    (hm : (k, v) ∈ sourceOptNonFetchDirectives p.CSP) :
    alookup k (staticDirectivesOf p) =
      if !isDynamic v then some (renderSourceOption v) else none := by
  have hk := mem_nonFetchNames_of_mem hm
  obtain ⟨hk1, hk2, hk3⟩ := nonFetchNames_disjoint k hk
  rw [staticDirectivesOf, alookup_cons, if_neg (fun h => hk1 h.symm)]
  unfold fetchStaticOf nonFetchStaticOf
  rw [List.append_assoc,
    alookup_append_of_none k _
      (alookup_render_filter_of_not_mem k _ _
        (by rw [keys_fetch]; exact hk2))]
  have hnf := alookup_render_filter k v (fun kv => !isDynamic kv.2)
    (sourceOptNonFetchDirectives p.CSP)
    (by rw [keys_nonFetch]; exact nonFetchNames_nodup) hm
  by_cases hcond : !isDynamic v
  · rw [if_pos hcond] at hnf
    rw [if_pos hcond]
    exact alookup_append_of_some k _ _ hnf
  · rw [if_neg hcond] at hnf
    rw [if_neg hcond, alookup_append_of_none k _ hnf]
    exact alookup_tail_eq_none p k hk3

/-- Dynamic-map lookup at a non-fetch source-option key: present iff the
directive is dynamic. -/
lemma alookup_dynamic_nonFetch (p : Policy) (k : String) (v : CSPSourceOptions)
    (hm : (k, v) ∈ sourceOptNonFetchDirectives p.CSP) :
    alookup k (dynamicDirectivesOf p) =
      if isDynamic v then some (renderSourceOption v) else none := by
  have hk := mem_nonFetchNames_of_mem hm
  obtain ⟨_, hk2, _⟩ := nonFetchNames_disjoint k hk
  unfold dynamicDirectivesOf fetchDynamicOf nonFetchDynamicOf
  rw [alookup_append_of_none k _
      (alookup_render_filter_of_not_mem k _ _
        (by rw [keys_fetch]; exact hk2))]
  exact alookup_render_filter k v (fun kv => isDynamic kv.2)
    (sourceOptNonFetchDirectives p.CSP)
    (by rw [keys_nonFetch]; exact nonFetchNames_nodup) hm

/-- `default-src` never appears in the dynamic map. -/
lemma alookup_dynamic_default (p : Policy) :
    alookup "default-src" (dynamicDirectivesOf p) = none := by
  unfold dynamicDirectivesOf fetchDynamicOf nonFetchDynamicOf
  rw [alookup_append_of_none _ _
      (alookup_render_filter_of_not_mem _ _ _ (by rw [keys_fetch]; decide))]
  exact alookup_render_filter_of_not_mem _ _ _ (by rw [keys_nonFetch]; decide)

/-- A key absent from both directive maps is absent from the flattened
active entries (hence no fragment, not even an empty one). -/
lemma alookup_active_eq_none (p : Policy) (k : String)
    (hs : alookup k (staticDirectivesOf p) = none)
    (hd : alookup k (dynamicDirectivesOf p) = none) :
    alookup k (activeEntriesOf p) = none := by
  apply alookup_filter_eq_none
  rw [alookup_append_of_none k _ hs]
  exact hd

/-- When the rendered `default-src` text is non-empty, the flattening
keeps the `default-src` entry. -/
lemma alookup_active_default_of_ne (p : Policy) (h : defaultTextOf p ≠ "") :
    alookup "default-src" (activeEntriesOf p) = some (defaultTextOf p) := by
  rw [activeEntriesOf, staticDirectivesOf, List.cons_append,
    List.filter_cons_of_pos (by simpa using h), alookup_cons, if_pos rfl]

/-- When the rendered `default-src` text is empty, the flattening drops
the `default-src` entry: no fragment for it at all. -/
lemma alookup_active_default_of_empty (p : Policy) (h : defaultTextOf p = "") :
    alookup "default-src" (activeEntriesOf p) = none := by
  rw [activeEntriesOf, staticDirectivesOf, List.cons_append,
    List.filter_cons_of_neg (by simp [h])]
  apply alookup_filter_eq_none
  unfold fetchStaticOf nonFetchStaticOf
  rw [List.append_assoc, List.append_assoc,
    alookup_append_of_none _ _
      (alookup_render_filter_of_not_mem _ _ _ (by rw [keys_fetch]; decide)),
    alookup_append_of_none _ _
      (alookup_render_filter_of_not_mem _ _ _ (by rw [keys_nonFetch]; decide)),
    alookup_append_of_none _ _ (alookup_tail_eq_none p _ (by decide))]
  exact alookup_dynamic_default p

lemma emittedOf_assemble (p : Policy) :
    emittedOf (assemble p) = activeEntriesOf p := rfl

lemma fragments_assemble (p : Policy) :
    (assemble p).fragments =
      (activeEntriesOf p).map (fun kv => kv.1 ++ " " ++ kv.2 ++ ";") := rfl

lemma headers_assemble (p : Policy) :
    (assemble p).headers =
      ("Content-Security-Policy",
        String.intercalate " " (assemble p).fragments) ::
      (if p.ReportToPayload != "" then [("Report-To", p.ReportToPayload)]
       else []) := rfl

lemma static_assemble (p : Policy) :
    (assemble p).staticDirectives = staticDirectivesOf p := rfl

lemma dynamic_assemble (p : Policy) :
    (assemble p).dynamicDirectives = dynamicDirectivesOf p := rfl

lemma string_length_eq_zero_iff (s : String) : s.length = 0 ↔ s = "" := by
  constructor
  · intro h
    obtain ⟨l⟩ := s
    have hl : l = [] := List.length_eq_zero.mp h
    subst hl; rfl
  · intro h; subst h; rfl

/-- With the default templates the only failure paths of `Load` are the
report-to checks, so an empty group name means success. -/
lemma load_eq_ok_of_value_empty (p : Policy) (h : p.CSP.ReportTo.Value = "") :
    p.Load = .ok (assemble p) := by
  rw [Policy.Load,
    if_neg (fun hne => hne ((string_length_eq_zero_iff _).mpr h))]

/-- `Load` succeeds (with `assemble`) when the report-to validation
passes. -/
lemma load_eq_ok_of_contains (p : Policy) (hpay : p.ReportToPayload ≠ "")
    (hc : stringsContains p.ReportToPayload p.CSP.ReportTo.Value = true) :
    p.Load = .ok (assemble p) := by
  rw [Policy.Load]
  by_cases hval : p.CSP.ReportTo.Value.length ≠ 0
  · rw [if_pos hval,
      if_neg (fun h0 => hpay ((string_length_eq_zero_iff _).mp h0)),
      if_neg (by simp [hc])]
  · rw [if_neg hval]

lemma foldl_string_append_shift (s : String) (xs : List String) :
    xs.foldl (fun r t => r ++ t) s = s ++ xs.foldl (fun r t => r ++ t) "" := by
  induction xs generalizing s with
  | nil => exact (String.append_empty s).symm
  | cons x xs ih =>
    simp only [List.foldl_cons]
    rw [ih (s ++ x), ih ("" ++ x), String.empty_append, String.append_assoc]

lemma string_join_cons (s : String) (xs : List String) :
    String.join (s :: xs) = s ++ String.join xs := by
  simp only [String.join, List.foldl_cons]
  rw [foldl_string_append_shift ("" ++ s) xs, String.empty_append]

lemma trailingSpace_append_space (s : String) :
    trailingSpace (s ++ " ") = true := by
  rw [trailingSpace, String.data_append,
    show (" " : String).data = [' '] from rfl, List.getLast?_concat]
  rfl

/-- The unquoted-multi (report-uri) rendering of a non-empty value list is
some string followed by a space. -/
lemma renderUnquotedOptions_eq_append_space (vs : List String) (h : vs ≠ []) :
    ∃ s, renderUnquotedOptions { Values := vs } = s ++ " " := by
  induction vs with
  | nil => exact absurd rfl h
  | cons v rest ih =>
    by_cases hr : rest = []
    · subst hr
      refine ⟨v, ?_⟩
      rw [renderUnquotedOptions]
      simp only [List.map_cons, List.map_nil]
      rw [string_join_cons, show String.join [] = "" from rfl,
        String.append_empty]
    · obtain ⟨s, hs⟩ := ih hr
      refine ⟨(v ++ " ") ++ s, ?_⟩
      rw [renderUnquotedOptions] at hs ⊢
      simp only [List.map_cons] at hs ⊢
      rw [string_join_cons, hs]
      simp [String.append_assoc]

/-- C1: for every `CSPSourceOptions` value with `Allow=false`, rendering
through the default source-option template returns exactly `'none'`, for
all possible values of the other fields. -/
theorem C1_default_disallow_renders_none (cso : CSPSourceOptions)
    (h : cso.Allow = false) : renderSourceOption cso = "'none'" := by
  rw [renderSourceOption, h]
  rfl

theorem C1_witness :
    renderSourceOption
      { Allow := false, AllowSelf := true,
        Values := ["https://example.com", "data:"], UnsafeEval := true,
        WasmUnsafeEval := true, UnsafeHashes := true, UnsafeInline := true,
        NonceBase64Value := "'nonce-abc'",
        HashAlgorithmBase64Value := "'sha256-xyz'", StrictDynamic := true,
        ReportSample := true } = "'none'" :=
  C1_default_disallow_renders_none _ rfl

/-- C6 counterexample: rendering the sandbox options with only
`AllowForms=true` and `AllowScripts=true` does NOT yield
`allow-forms allow-scripts`: the default sandbox template prepends a
space before every token except `allow-downloads`, so the result carries
a leading space. -/
theorem C6_counterexample :
    renderSandbox egSandboxFormsScripts = " allow-forms allow-scripts" ∧
    renderSandbox egSandboxFormsScripts ≠ "allow-forms allow-scripts" := by
  decide

/-- C6 (amended): for the `SandboxOptions` value with only
`AllowForms=true` and `AllowScripts=true`, rendering through the default
sandbox template yields exactly `" allow-forms allow-scripts"`: the two
tokens in the fixed canonical sandbox ordering, separated by a single
space, with no trailing space, but with a single LEADING space (the
template only omits the space before the first token
`allow-downloads`, which is absent here). -/
theorem C6_amended_leading_space :
    renderSandbox egSandboxFormsScripts = " allow-forms allow-scripts" := by
  decide

/-- C7 counterexample: the nonce token of the default source-option
template is appended with NO preceding space (yielding
`'self''nonce-abc'`), and the unquoted-multi (report-uri) template
appends a trailing space after each value, so its rendering ends with a
space. -/
theorem C7_counterexample :
    renderSourceOption egC7src = "'self''nonce-abc'" ∧
    renderUnquotedOptions egC7uris = "https://example.com/r " ∧
    trailingSpace (renderUnquotedOptions egC7uris) = true := by
  decide

/-- C7 (amended): rendering under the default templates is deterministic
(it is a pure function of the option value); a source option consisting
only of boolean flag tokens never contains two adjacent spaces and never
ends with a space; but the nonce/hash tokens are appended with NO
preceding space, and the unquoted-multi (report-uri) template appends a
trailing space after every value, so its rendering ends with a space
whenever the value list is non-empty. -/
theorem C7_amended_whitespace :
    (∀ cso : CSPSourceOptions, cso.Allow = true → cso.Values = [] →
      cso.NonceBase64Value = "" → cso.HashAlgorithmBase64Value = "" →
      hasDoubleSpace (renderSourceOption cso) = false ∧
      trailingSpace (renderSourceOption cso) = false) ∧
    (∀ nonce hash : String,
      renderSourceOption
        { Allow := true, AllowSelf := true, NonceBase64Value := nonce,
          HashAlgorithmBase64Value := hash } = "'self'" ++ nonce ++ hash) ∧
    (∀ vs : List String, vs ≠ [] →
      trailingSpace (renderUnquotedOptions { Values := vs }) = true) := by
  refine ⟨?_, ?_, ?_⟩
  · intro cso hA hV hN hH
    obtain ⟨A, AS, V, UE, WE, UH, UI, N, H, SD, RS⟩ := cso
    simp only at hA hV hN hH
    subst hA hV hN hH
    revert AS UE WE UH UI SD RS
    decide
  · intro nonce hash
    by_cases hn : 0 < nonce.length
    · by_cases hh : 0 < hash.length
      · simp [renderSourceOption, hn, hh, String.join, String.append_assoc]
      · obtain rfl : hash = "" :=
          (string_length_eq_zero_iff _).mp (Nat.eq_zero_of_not_pos hh)
        simp [renderSourceOption, hn, String.join, String.append_assoc]
    · obtain rfl : nonce = "" :=
        (string_length_eq_zero_iff _).mp (Nat.eq_zero_of_not_pos hn)
      by_cases hh : 0 < hash.length
      · simp [renderSourceOption, hh, String.join, String.append_assoc]
      · obtain rfl : hash = "" :=
          (string_length_eq_zero_iff _).mp (Nat.eq_zero_of_not_pos hh)
        simp [renderSourceOption, String.join]
  · intro vs h
    obtain ⟨s, hs⟩ := renderUnquotedOptions_eq_append_space vs h
    rw [hs]
    exact trailingSpace_append_space s

theorem C7_witness :
    (hasDoubleSpace (renderSourceOption egC7flags) = false ∧
     trailingSpace (renderSourceOption egC7flags) = false) ∧
    renderSourceOption
      { Allow := true, AllowSelf := true, NonceBase64Value := "'nonce-n'",
        HashAlgorithmBase64Value := "'sha256-h'" } =
      "'self'" ++ "'nonce-n'" ++ "'sha256-h'" ∧
    trailingSpace
      (renderUnquotedOptions { Values := ["https://example.com/r"] }) = true :=
  ⟨C7_amended_whitespace.1 egC7flags rfl rfl rfl rfl,
   C7_amended_whitespace.2.1 _ _,
   C7_amended_whitespace.2.2 _ (by decide)⟩

/-- C10: each of the five template-text fields falls back to the built-in
default exactly when the supplied text is empty; a non-empty supplied
text is used as-is; since all five built-in defaults are non-empty, the
resolved template text is never literally empty, so supplying the empty
string is indistinguishable from supplying nothing. -/
theorem C10_template_fallback :
    (∀ d : String, resolveTemplateText "" d = d) ∧
    (∀ s d : String, s ≠ "" → resolveTemplateText s d = s) ∧
    (∀ s : String,
      resolveTemplateText s TemplateTextSourceOption ≠ "" ∧
      resolveTemplateText s TemplateTextSandbox ≠ "" ∧
      resolveTemplateText s TemplateTextFrameAncestorOptions ≠ "" ∧
      resolveTemplateText s TemplateTextUnquotedOptions ≠ "" ∧
      resolveTemplateText s TemplateTextUnquotedOption ≠ "") := by
  refine ⟨fun d => rfl, fun s d hs => ?_, fun s => ?_⟩
  · rw [resolveTemplateText,
      if_neg (fun h0 => hs ((string_length_eq_zero_iff s).mp h0))]
  · have key : ∀ dflt : String, dflt ≠ "" → resolveTemplateText s dflt ≠ "" := by
      intro dflt hd
      rw [resolveTemplateText]
      by_cases h0 : s.length = 0
      · rw [if_pos h0]; exact hd
      · rw [if_neg h0]
        exact fun h => h0 ((string_length_eq_zero_iff s).mpr h)
    exact ⟨key _ (by decide), key _ (by decide), key _ (by decide),
      key _ (by decide), key _ (by decide)⟩

theorem C10_witness :
    resolveTemplateText "" TemplateTextSourceOption = TemplateTextSourceOption ∧
    resolveTemplateText "custom template" TemplateTextSandbox =
      "custom template" ∧
    resolveTemplateText "custom template" TemplateTextSourceOption ≠ "" :=
  ⟨C10_template_fallback.1 _,
   C10_template_fallback.2.1 _ _ (by decide),
   (C10_template_fallback.2.2 "custom template").1⟩

/-- C3: when the `report-to` group name is non-empty, `Load` errors
(returning no header map, since the error constructor carries none) on an
empty payload, errors when the payload does not contain the group name as
a substring, and otherwise passes validation and succeeds; when the group
name is empty the check is skipped entirely, regardless of the payload. -/
theorem C3_report_to_validation (p : Policy) :
    (p.CSP.ReportTo.Value ≠ "" → p.ReportToPayload = "" →
      p.Load = .error
        "report-to is required if Content-Security-Policy: report-to <value> is set") ∧
    (p.CSP.ReportTo.Value ≠ "" → p.ReportToPayload ≠ "" →
      stringsContains p.ReportToPayload p.CSP.ReportTo.Value = false →
      p.Load = .error "report-to target not found") ∧
    (p.CSP.ReportTo.Value ≠ "" → p.ReportToPayload ≠ "" →
      stringsContains p.ReportToPayload p.CSP.ReportTo.Value = true →
      p.Load = .ok (assemble p)) ∧
    (p.CSP.ReportTo.Value = "" → p.Load = .ok (assemble p)) := by
  refine ⟨?_, ?_, ?_, ?_⟩
  · intro hval hpay
    have h1 : p.CSP.ReportTo.Value.length ≠ 0 :=
      fun h0 => hval ((string_length_eq_zero_iff _).mp h0)
    rw [Policy.Load, if_pos h1,
      if_pos ((string_length_eq_zero_iff _).mpr hpay)]
  · intro hval hpay hcont
    have h1 : p.CSP.ReportTo.Value.length ≠ 0 :=
      fun h0 => hval ((string_length_eq_zero_iff _).mp h0)
    rw [Policy.Load, if_pos h1,
      if_neg (fun h0 => hpay ((string_length_eq_zero_iff _).mp h0)),
      if_pos (by simp [hcont])]
  · intro hval hpay hcont
    exact load_eq_ok_of_contains p hpay hcont
  · intro hval
    exact load_eq_ok_of_value_empty p hval

theorem C3_witness :
    Policy.Load egC3Missing =
      .error
        "report-to is required if Content-Security-Policy: report-to <value> is set" ∧
    Policy.Load egC3Mismatch = .error "report-to target not found" ∧
    Policy.Load egC3Good = .ok (assemble egC3Good) ∧
    Policy.Load egZero = .ok (assemble egZero) :=
  ⟨(C3_report_to_validation egC3Missing).1 (by decide) rfl,
   (C3_report_to_validation egC3Mismatch).2.1 (by decide) (by decide) (by decide),
   (C3_report_to_validation egC3Good).2.2.1 (by decide) (by decide) (by decide),
   (C3_report_to_validation egZero).2.2.2 rfl⟩

/-- C8: for every policy on which `Load` succeeds, the returned map always
has the key `Content-Security-Policy` (bound to the flattened fragments),
and has the key `Report-To` exactly when the caller-supplied payload is
non-empty, in which case its value is the payload, unmodified. -/
theorem C8_header_map (p : Policy) (r : LoadResult) (h : p.Load = .ok r) :
    alookup "Content-Security-Policy" r.headers =
      some (String.intercalate " " r.fragments) ∧
    (p.ReportToPayload ≠ "" →
      alookup "Report-To" r.headers = some p.ReportToPayload) ∧
    (p.ReportToPayload = "" → alookup "Report-To" r.headers = none) := by
  obtain rfl := load_ok h
  refine ⟨?_, ?_, ?_⟩
  · rw [headers_assemble, alookup_cons, if_pos rfl]
  · intro hp
    rw [headers_assemble, alookup_cons, if_neg (by decide),
      if_pos (bne_iff_ne.mpr hp), alookup_cons, if_pos rfl]
  · intro hp
    rw [headers_assemble, alookup_cons, if_neg (by decide), hp]
    rfl

theorem C8_witness :
    alookup "Content-Security-Policy" (assemble egC8).headers =
      some (String.intercalate " " (assemble egC8).fragments) ∧
    alookup "Report-To" (assemble egC8).headers =
      some "endpoints descriptor" :=
  have h := C8_header_map egC8 (assemble egC8)
    (load_eq_ok_of_value_empty egC8 rfl)
  ⟨h.1, h.2.1 (by decide)⟩

/-- C9: for the zero-valued policy, `Load` succeeds; the returned map has
exactly the key `Content-Security-Policy`; its fragments are exactly
`default-src 'none';`, `base-uri 'none';`, `form-action 'none';` and
`frame-ancestors 'none';` joined by single spaces: all 16 fetch
directives render `'none'` and are filtered as redundant with
`default-src` (none appears in the static or dynamic map), while the
non-fetch source options and `frame-ancestors` are kept. -/
theorem C9_zero_policy :
    Policy.Load egZero = .ok (assemble egZero) ∧
    (assemble egZero).headers =
      [("Content-Security-Policy",
        "default-src 'none'; base-uri 'none'; form-action 'none'; frame-ancestors 'none';")] ∧
    (assemble egZero).fragments =
      ["default-src 'none';", "base-uri 'none';", "form-action 'none';",
       "frame-ancestors 'none';"] ∧
    (assemble egZero).dynamicDirectives = [] ∧
    (assemble egZero).staticDirectives =
      [("default-src", "'none'"), ("base-uri", "'none'"),
       ("form-action", "'none'"), ("sandbox", ""),
       ("frame-ancestors", "'none'"), ("report-uri", ""), ("report-to", ""),
       ("upgrade-insecure-requests", "")] :=
  ⟨load_eq_ok_of_value_empty egZero rfl, by decide, by decide, by decide,
   by decide⟩

set_option maxRecDepth 8192 in
/-- C2 counterexample: with `ScriptSrc` and `DefaultSrc` equal but
rendering to the empty string (`Allow=true`, all else zero), `Load`
succeeds yet the output contains NO `default-src` fragment: the
flattening's emptiness check drops `default-src` itself. -/
theorem C2_counterexample :
    egC2.CSP.ScriptSrc = egC2.CSP.DefaultSrc ∧
    Policy.Load egC2 = .ok (assemble egC2) ∧
    alookup "default-src" (emittedOf (assemble egC2)) = none ∧
    stringsContains (cspValueOf (assemble egC2)) "default-src" = false :=
  ⟨by decide, load_eq_ok_of_value_empty egC2 rfl, by decide, by decide⟩

/-- C2 (amended): for every policy on which `Load` succeeds and every
fetch directive whose rendered text is byte-identical to the rendered
`default-src` text, the output contains no entry for that directive at
all (not in the static map, the dynamic map, or the emitted entries —
not even an empty one); and the output contains a `default-src` fragment
provided the rendered `default-src` text is non-empty (when it renders
empty, the emptiness check drops it as well). -/
theorem C2_amended_redundant_fetch_omitted (p : Policy) (r : LoadResult)
    (h : p.Load = .ok r) (k : String) (v : CSPSourceOptions)
    (hm : (k, v) ∈ sourceOptFetchDirectives p.CSP)
    (heq : renderSourceOption v = defaultTextOf p) :
    alookup k r.staticDirectives = none ∧
    alookup k r.dynamicDirectives = none ∧
    alookup k (emittedOf r) = none ∧
    (defaultTextOf p ≠ "" →
      ("default-src" ++ " " ++ defaultTextOf p ++ ";") ∈ r.fragments) := by
  obtain rfl := load_ok h
  have hbne : (renderSourceOption v != defaultTextOf p) = false := by
    simp [heq]
  have hs : alookup k (staticDirectivesOf p) = none := by
    rw [alookup_static_fetch p k v hm, hbne]
    simp
  have hd : alookup k (dynamicDirectivesOf p) = none := by
    rw [alookup_dynamic_fetch p k v hm, hbne]
    simp
  refine ⟨hs, hd, alookup_active_eq_none p k hs hd, ?_⟩
  intro hne
  have ha := alookup_active_default_of_ne p hne
  rw [fragments_assemble]
  exact List.mem_map_of_mem _ (mem_of_alookup_eq_some _ _ _ ha)

theorem C2_witness :
    alookup "script-src" (assemble egZero).staticDirectives = none ∧
    alookup "script-src" (assemble egZero).dynamicDirectives = none ∧
    alookup "script-src" (emittedOf (assemble egZero)) = none ∧
    ("default-src" ++ " " ++ defaultTextOf egZero ++ ";") ∈
      (assemble egZero).fragments :=
  have hmain := C2_amended_redundant_fetch_omitted egZero (assemble egZero)
    (load_eq_ok_of_value_empty egZero rfl) "script-src" egZero.CSP.ScriptSrc
    (by decide) (by decide)
  ⟨hmain.1, hmain.2.1, hmain.2.2.1, hmain.2.2.2 (by decide)⟩

/-- C4 counterexample: a `script-src` carrying a non-empty nonce but with
`Allow=false` renders `'none'`, identical to the zero `default-src`; the
redundancy filter runs BEFORE the partitioner, so the directive lands in
neither map: in particular it is absent from the dynamic mapping despite
its non-empty nonce. -/
theorem C4_counterexample :
    0 < egC4.CSP.ScriptSrc.NonceBase64Value.length ∧
    isDynamic egC4.CSP.ScriptSrc = true ∧
    Policy.Load egC4 = .ok (assemble egC4) ∧
    alookup "script-src" (assemble egC4).dynamicDirectives = none ∧
    (assemble egC4).dynamicDirectives = [] :=
  ⟨by decide, by decide, load_eq_ok_of_value_empty egC4 rfl, by decide,
   by decide⟩

/-- C4 (amended): after a successful `Load`, for every fetch directive
that SURVIVES the redundancy filter (rendered text different from the
rendered `default-src` text): if its nonce or hash is non-empty it is
absent from the static map and present in the dynamic map, else it is
absent from the dynamic map and present in the static map; the two
non-fetch source-option directives (`base-uri`, `form-action`) are
partitioned the same way with no redundancy condition.  (A redundant
fetch directive is dropped before partitioning, so a nonce-carrying
directive whose rendering matches `default-src` appears in neither
map, and `default-src` itself is always static.) -/
theorem C4_amended_partitioning (p : Policy) (r : LoadResult)
    (h : p.Load = .ok r) :
    (∀ k v, (k, v) ∈ sourceOptFetchDirectives p.CSP →
      renderSourceOption v ≠ defaultTextOf p →
      (isDynamic v = true →
        alookup k r.staticDirectives = none ∧
        alookup k r.dynamicDirectives = some (renderSourceOption v)) ∧
      (isDynamic v = false →
        alookup k r.dynamicDirectives = none ∧
        alookup k r.staticDirectives = some (renderSourceOption v))) ∧
    (∀ k v, (k, v) ∈ sourceOptNonFetchDirectives p.CSP →
      (isDynamic v = true →
        alookup k r.staticDirectives = none ∧
        alookup k r.dynamicDirectives = some (renderSourceOption v)) ∧
      (isDynamic v = false →
        alookup k r.dynamicDirectives = none ∧
        alookup k r.staticDirectives = some (renderSourceOption v))) := by
  obtain rfl := load_ok h
  constructor
  · intro k v hm hne
    have hbne : (renderSourceOption v != defaultTextOf p) = true :=
      bne_iff_ne.mpr hne
    constructor
    · intro hdyn
      constructor
      · rw [static_assemble, alookup_static_fetch p k v hm, hbne, hdyn]; simp
      · rw [dynamic_assemble, alookup_dynamic_fetch p k v hm, hbne, hdyn]; simp
    · intro hdyn
      constructor
      · rw [dynamic_assemble, alookup_dynamic_fetch p k v hm, hbne, hdyn]; simp
      · rw [static_assemble, alookup_static_fetch p k v hm, hbne, hdyn]; simp
  · intro k v hm
    constructor
    · intro hdyn
      exact ⟨by rw [static_assemble, alookup_static_nonFetch p k v hm, hdyn]; simp,
        by rw [dynamic_assemble, alookup_dynamic_nonFetch p k v hm, hdyn]; simp⟩
    · intro hdyn
      exact ⟨by rw [dynamic_assemble, alookup_dynamic_nonFetch p k v hm, hdyn]; simp,
        by rw [static_assemble, alookup_static_nonFetch p k v hm, hdyn]; simp⟩

theorem C4_witness :
    alookup "script-src" (assemble egC4w).staticDirectives = none ∧
    alookup "script-src" (assemble egC4w).dynamicDirectives =
      some (renderSourceOption egC4w.CSP.ScriptSrc) ∧
    alookup "base-uri" (assemble egC4w).dynamicDirectives = none ∧
    alookup "base-uri" (assemble egC4w).staticDirectives =
      some (renderSourceOption egC4w.CSP.BaseURI) :=
  have h := C4_amended_partitioning egC4w (assemble egC4w)
    (load_eq_ok_of_value_empty egC4w rfl)
  have hf := h.1 "script-src" egC4w.CSP.ScriptSrc (by decide) (by decide)
  have hn := h.2 "base-uri" egC4w.CSP.BaseURI (by decide)
  ⟨(hf.1 (by decide)).1, (hf.1 (by decide)).2, (hn.2 (by decide)).1,
   (hn.2 (by decide)).2⟩

set_option maxRecDepth 8192 in
/-- C5 counterexample: a policy whose `default-src` renders to the empty
string (`Allow=true`, all else zero) loads successfully, yet its output
contains no `default-src` fragment: the flattening's emptiness check
removes `default-src` like any other empty directive. -/
theorem C5_counterexample :
    Policy.Load egC5 = .ok (assemble egC5) ∧
    defaultTextOf egC5 = "" ∧
    alookup "default-src" (emittedOf (assemble egC5)) = none ∧
    stringsContains (cspValueOf (assemble egC5)) "default-src" = false :=
  ⟨load_eq_ok_of_value_empty egC5 rfl, by decide, by decide, by decide⟩

/-- C5 (amended): for every policy on which `Load` succeeds, `default-src`
is stored in the static mapping unconditionally (never removed by the
redundancy filter, and never dynamic); the output contains a
`default-src` fragment IF AND ONLY IF its rendered text is non-empty —
the emptiness check during flattening drops it when the text is empty
(e.g. `Allow=true` with all other fields empty). -/
theorem C5_amended_default_src (p : Policy) (r : LoadResult)
    (h : p.Load = .ok r) :
    alookup "default-src" r.staticDirectives = some (defaultTextOf p) ∧
    alookup "default-src" r.dynamicDirectives = none ∧
    (defaultTextOf p ≠ "" →
      alookup "default-src" (emittedOf r) = some (defaultTextOf p) ∧
      ("default-src" ++ " " ++ defaultTextOf p ++ ";") ∈ r.fragments) ∧
    (defaultTextOf p = "" →
      alookup "default-src" (emittedOf r) = none) := by
  obtain rfl := load_ok h
  refine ⟨alookup_static_default p, alookup_dynamic_default p, ?_,
    alookup_active_default_of_empty p⟩
  intro hne
  have ha := alookup_active_default_of_ne p hne
  exact ⟨ha, by
    rw [fragments_assemble]
    exact List.mem_map_of_mem _ (mem_of_alookup_eq_some _ _ _ ha)⟩

theorem C5_witness :
    alookup "default-src" (assemble egZero).staticDirectives =
      some (defaultTextOf egZero) ∧
    alookup "default-src" (emittedOf (assemble egZero)) =
      some (defaultTextOf egZero) ∧
    ("default-src" ++ " " ++ defaultTextOf egZero ++ ";") ∈
      (assemble egZero).fragments :=
  have h := C5_amended_default_src egZero (assemble egZero)
    (load_eq_ok_of_value_empty egZero rfl)
  ⟨h.1, (h.2.2.1 (by decide)).1, (h.2.2.1 (by decide)).2⟩

end Cspheader
